import Mathlib

/-!
Shallow embedding of `src/pallets/weights/src/lib.rs`: the `StoredValue`
storage cell, the three weighing structs (`Linear`, `Quadratic`,
`Conditional`) and the five dispatchable operations of the module
(`store_value`, `add_n`, `double`, `complex_calculations`, `add_or_set`).

The storage cell holds a `u32`; we model `u32` values as `Nat` carrying the
invariant `< 2^32`.  Rust's `saturating_mul` / `saturating_add` are modelled
through `checked` operations exactly as in Rust core, and the unchecked `+`
that the operation bodies apply to `StoredValue` is modelled by its defined
release-profile semantics: addition modulo `2^32`.

Each operation takes the current `StoredValue` and returns the pair of its
`DispatchResult` (modelled as `Except String Unit`) and the `StoredValue`
after the call.
-/

namespace Weights

/-- The modulus of the `u32` type: `2^32`. -/
def U32_MOD : Nat := 4294967296

/-- `u32::MAX`. -/
def U32_MAX : Nat := U32_MOD - 1

/-- The `StoredValue` storage item holds a `u32`; modelled as `Nat` with the
invariant of being `< 2^32`. -/
abbrev StoredValue := Nat

/-- Rust `u32::checked_mul`: `none` on overflow. -/
def checked_mul (x y : Nat) : Option Nat :=
  if x * y ≤ U32_MAX then some (x * y) else none

/-- Rust `u32::checked_add`: `none` on overflow. -/
def checked_add (x y : Nat) : Option Nat :=
  if x + y ≤ U32_MAX then some (x + y) else none

/-- Rust `u32::saturating_mul`: clamps to `u32::MAX` on overflow. -/
def saturating_mul (x y : Nat) : Nat :=
  (checked_mul x y).getD U32_MAX

/-- Rust `u32::saturating_add`: clamps to `u32::MAX` on overflow. -/
def saturating_add (x y : Nat) : Nat :=
  (checked_add x y).getD U32_MAX

/-- The unchecked `+` on `u32` used by the operation bodies
(`old + 1`, `part1 += 2`): wraps modulo `2^32` (release-profile semantics). -/
def u32_add (x y : Nat) : Nat := (x + y) % U32_MOD

/-- `pub struct Linear(u32)`: a scale weighing transactions with a single
`u32` argument; the weight is the product of the parameter and the field. -/
structure Linear where
  c0 : Nat

/-- `impl WeighData<(&u32,)> for Linear`: `x.saturating_mul(self.0)`. -/
def Linear.weigh_data (s : Linear) (x : Nat) : Nat :=
  saturating_mul x s.c0

/-- `impl PaysFee for Linear`: always `true`. -/
def Linear.pays_fee (_s : Linear) : Bool := true

/-- `pub struct Quadratic(u32, u32, u32)`: weight `a*x^2 + b*y + c`. -/
structure Quadratic where
  c0 : Nat
  c1 : Nat
  c2 : Nat

/-- `impl WeighData<(&u32, &u32)> for Quadratic`:
`ax2 = x.saturating_mul(x).saturating_mul(a)`, `by = y.saturating_mul(b)`,
result `ax2.saturating_add(by).saturating_add(c)`. -/
def Quadratic.weigh_data (s : Quadratic) (x y : Nat) : Nat :=
  let ax2 := saturating_mul (saturating_mul x x) s.c0
  let yb := saturating_mul y s.c1
  let c := s.c2
  saturating_add (saturating_add ax2 yb) c

/-- `impl PaysFee for Quadratic`: always `true`. -/
def Quadratic.pays_fee (_s : Quadratic) : Bool := true

/-- `pub struct Conditional(u32)`: linear in the second parameter when the
boolean first parameter is true, otherwise the constant field. -/
structure Conditional where
  c0 : Nat

/-- `impl WeighData<(&bool, &u32)> for Conditional`:
`if *switch { val.saturating_mul(self.0) } else { self.0 }`. -/
def Conditional.weigh_data (s : Conditional) (switch : Bool) (val : Nat) : Nat :=
  if switch then saturating_mul val s.c0 else s.c0

/-- `impl PaysFee for Conditional`: always `true`. -/
def Conditional.pays_fee (_s : Conditional) : Bool := true

/-- The message of the `ensure!` in `double`. -/
def validationError : String := "Storage value did not match parameter"

/-- The loop body shared by `add_n` and `double`:
`old = StoredValue::get(); StoredValue::put(old + 1)`, iterated `n` times. -/
def incr_loop : Nat → StoredValue → StoredValue
  | 0, s => s
  | n + 1, s => incr_loop n (u32_add s 1)

/-- `fn store_value(_origin, entry: u32)`: `StoredValue::put(entry); Ok(())`. -/
def store_value (entry : Nat) (_s : StoredValue) : Except String Unit × StoredValue :=
  (Except.ok (), entry)

/-- `fn add_n(_origin, n: u32)`: for `_i in 1..=n` read `StoredValue` and
write back the value plus one; then `Ok(())`. -/
def add_n (n : Nat) (s : StoredValue) : Except String Unit × StoredValue :=
  (Except.ok (), incr_loop n s)

/-- `fn double(_origin, initial_value: u32)`: read `initial`, `ensure!` it
equals `initial_value` (otherwise fail before any mutation), then increment
`StoredValue` once for each `_i in 1..=initial`. -/
def double (initial_value : Nat) (s : StoredValue) : Except String Unit × StoredValue :=
  let initial := s
  if initial = initial_value then
    (Except.ok (), incr_loop initial s)
  else
    (Except.error validationError, s)

/-- Phase 1 of `complex_calculations`: `for _i in 1..=y { part1 += 2 }`,
on the in-memory `u32` accumulator `part1`. -/
def part1_loop : Nat → Nat → Nat
  | 0, acc => acc
  | y + 1, acc => part1_loop y (u32_add acc 2)

/-- The outer loop of phase 2 of `complex_calculations`: `x` rounds, each an
inner loop of `x` read-increment-write cycles on `StoredValue`. -/
def outer_loop (x : Nat) : Nat → StoredValue → StoredValue
  | 0, s => s
  | j + 1, s => outer_loop x j (incr_loop x s)

/-- `fn complex_calculations(_origin, x: u32, y: u32)`: phase 1 accumulates
`part1` by 2 for `y` iterations in memory; phase 2 performs `x^2` storage
read-increment-writes; the final `StoredValue::put(part1)` overwrites the
phase-2 result. -/
def complex_calculations (x y : Nat) (s : StoredValue) :
    Except String Unit × StoredValue :=
  let part1 := part1_loop y 0
  let _s2 := outer_loop x x s
  (Except.ok (), part1)

/-- The false-branch loop of `add_or_set`:
`for _i in 1..=val { StoredValue::put(StoredValue::get()) }`. -/
def set_loop : Nat → StoredValue → StoredValue
  | 0, s => s
  | v + 1, s => set_loop v s

/-- `fn add_or_set(_origin, add_flag: bool, val: u32)`: if `add_flag`,
write `val`; otherwise rewrite the current value `val` times. -/
def add_or_set (add_flag : Bool) (val : Nat) (s : StoredValue) :
    Except String Unit × StoredValue :=
  if add_flag then
    (Except.ok (), val)
  else
    (Except.ok (), set_loop val s)

/-- Modelled from the spec's §3/§8 words for comparison with the code's
`add_n` (the code is the authority): the variant of `add_n` in which each
update of `StoredValue` uses saturating (clamp-on-overflow) addition, as the
spec asserts all updates do. -/
def incr_loop_saturating : Nat → StoredValue → StoredValue
  | 0, s => s
  | n + 1, s => incr_loop_saturating n (saturating_add s 1)

/-- The spec-side `add_n` built on saturating updates (see
`incr_loop_saturating`). -/
def add_n_saturating (n : Nat) (s : StoredValue) :
    Except String Unit × StoredValue :=
  (Except.ok (), incr_loop_saturating n s)

/-! ### Basic lemmas about the loops and the saturating arithmetic -/

theorem saturating_mul_eq_min (x y : Nat) :
    saturating_mul x y = min (x * y) U32_MAX := by
  unfold saturating_mul checked_mul
  split <;> simp <;> omega

theorem saturating_add_eq_min (x y : Nat) :
    saturating_add x y = min (x + y) U32_MAX := by
  unfold saturating_add checked_add
  split <;> simp <;> omega

theorem min_mul_min (A b M : Nat) : min (min A M * b) M = min (A * b) M := by
  rcases Nat.le_total A M with h | h
  · rw [Nat.min_eq_left h]
  · rw [Nat.min_eq_right h]
    rcases Nat.eq_zero_or_pos b with hb | hb
    · subst hb; simp
    · have h1 : M ≤ M * b := Nat.le_mul_of_pos_right M hb
      have h2 : M * b ≤ A * b := Nat.mul_le_mul_right b h
      rw [Nat.min_eq_right h1, Nat.min_eq_right (Nat.le_trans h1 h2)]

theorem min_add_min (A B M : Nat) :
    min (min A M + min B M) M = min (A + B) M := by omega

theorem min_add_right (A c M : Nat) : min (min A M + c) M = min (A + c) M := by
  omega

theorem incr_loop_mod (n : Nat) :
    ∀ s : Nat, s < U32_MOD → incr_loop n s = (s + n) % U32_MOD := by
  induction n with
  | zero => intro s hs; simp [incr_loop, Nat.mod_eq_of_lt hs]
  | succ k ih =>
    intro s hs
    have hlt : u32_add s 1 < U32_MOD := Nat.mod_lt _ (by simp [U32_MOD])
    rw [incr_loop, ih (u32_add s 1) hlt]
    unfold u32_add
    rw [Nat.mod_add_mod]
    congr 1
    omega

theorem incr_loop_of_le (n s : Nat) (h : s + n ≤ U32_MAX) :
    incr_loop n s = s + n := by
  have hm : s < U32_MOD := by simp only [U32_MAX, U32_MOD] at h ⊢; omega
  rw [incr_loop_mod n s hm]
  apply Nat.mod_eq_of_lt
  simp only [U32_MAX, U32_MOD] at h ⊢
  omega

theorem part1_loop_mod (y : Nat) :
    ∀ acc : Nat, acc < U32_MOD → part1_loop y acc = (acc + 2 * y) % U32_MOD := by
  induction y with
  | zero => intro acc hacc; simp [part1_loop, Nat.mod_eq_of_lt hacc]
  | succ k ih =>
    intro acc hacc
    have hlt : u32_add acc 2 < U32_MOD := Nat.mod_lt _ (by simp [U32_MOD])
    rw [part1_loop, ih (u32_add acc 2) hlt]
    unfold u32_add
    rw [Nat.mod_add_mod]
    congr 1
    omega

theorem part1_loop_of_le (y acc : Nat) (h : acc + 2 * y ≤ U32_MAX) :
    part1_loop y acc = acc + 2 * y := by
  have hm : acc < U32_MOD := by simp only [U32_MAX, U32_MOD] at h ⊢; omega
  rw [part1_loop_mod y acc hm]
  apply Nat.mod_eq_of_lt
  simp only [U32_MAX, U32_MOD] at h ⊢
  omega

theorem set_loop_eq (v : Nat) : ∀ s : Nat, set_loop v s = s := by
  induction v with
  | zero => intro s; rfl
  | succ k ih => intro s; rw [set_loop, ih]

theorem incr_loop_eq_iterate (n : Nat) :
    ∀ s : Nat, incr_loop n s = (fun t => u32_add t 1)^[n] s := by
  induction n with
  | zero => intro s; rfl
  | succ k ih =>
    intro s
    rw [incr_loop, ih, Function.iterate_succ_apply]

/-! ### Claim theorems -/

/-- Claim C1: for every starting `StoredValue` `s` and parameter `v`,
`double v` fails with the validation error and leaves storage at `s` when
`v ≠ s` (the `ensure!` runs before any mutation), and succeeds leaving
storage at `s + s` when `v = s`, provided `s + s` fits in 32 bits. -/
theorem double_spec (s v : Nat) :
    (v ≠ s → double v s = (Except.error validationError, s)) ∧
    (v = s → s + s ≤ U32_MAX → double v s = (Except.ok (), s + s)) := by
  constructor
  · intro h
    simp only [double]
    rw [if_neg (fun hh => h hh.symm)]
  · intro h hle
    subst h
    simp only [double]
    rw [if_pos trivial, incr_loop_of_le v v hle]

theorem double_spec_witness :
    double 5 3 = (Except.error validationError, 3) ∧
    double 3 3 = (Except.ok (), 6) :=
  ⟨(double_spec 3 5).1 (by decide), (double_spec 3 3).2 rfl (by decide)⟩

/-- Claim C2, counterexample: the claim asserts every arithmetic update of
`StoredValue` uses saturating semantics, but the operation bodies use the
unchecked `+` (`old + 1`).  At `StoredValue = u32::MAX`, the code's
`add_n 1` wraps the cell to `0`, while the saturating variant the spec
describes (`add_n_saturating`) would clamp it to `u32::MAX`; the two
results differ, so the updates are not saturating. -/
theorem add_n_not_saturating :
    (add_n 1 U32_MAX).2 = 0 ∧
    (add_n_saturating 1 U32_MAX).2 = U32_MAX ∧
    (0 : Nat) ≠ U32_MAX :=
  ⟨rfl, rfl, by decide⟩

/-- Claim C2, amended: apart from `double`'s validation error, no operation
returns an error on any input (`store_value`, `add_n`,
`complex_calculations`, `add_or_set` always succeed, and `double` fails
exactly when the parameter mismatches storage); however, the arithmetic
updating `StoredValue` is the unchecked `+`, which wraps modulo `2^32` on
overflow rather than saturating. -/
theorem operations_total_wrapping (s n x y v e : Nat) (b : Bool) :
    (store_value e s).1 = Except.ok () ∧
    (add_n n s).1 = Except.ok () ∧
    (complex_calculations x y s).1 = Except.ok () ∧
    (add_or_set b v s).1 = Except.ok () ∧
    ((double v s).1 = Except.ok () ↔ s = v) ∧
    (s < U32_MOD → (add_n n s).2 = (s + n) % U32_MOD) := by
  refine ⟨rfl, rfl, rfl, ?_, ?_, ?_⟩
  · cases b <;> rfl
  · by_cases h : s = v
    · simp [double, h]
    · simp [double, h]
  · intro hm
    exact incr_loop_mod n s hm

theorem operations_total_wrapping_witness :
    (add_n 1 U32_MAX).2 = (U32_MAX + 1) % U32_MOD :=
  (operations_total_wrapping U32_MAX 1 0 0 0 0 true).2.2.2.2.2 (by decide)

/-- Claim C3: `add_n n` performs `n` separate read-then-write increments of
one (the iterate of the single-increment step), after which `StoredValue`
equals `s + n` whenever `s + n` fits in 32 bits; `add_n 0` leaves the value
unchanged. -/
theorem add_n_spec (s n : Nat) :
    add_n n s = (Except.ok (), (fun t => u32_add t 1)^[n] s) ∧
    (s + n ≤ U32_MAX → (add_n n s).2 = s + n) ∧
    (add_n 0 s).2 = s := by
  refine ⟨?_, ?_, rfl⟩
  · simp only [add_n, incr_loop_eq_iterate]
  · intro h
    exact incr_loop_of_le n s h

theorem add_n_spec_witness : (add_n 3 5).2 = 8 :=
  (add_n_spec 5 3).2.1 (by decide)

/-- Claim C4: for every starting `StoredValue` and all `x`, `y` with `2 * y`
representable in 32 bits, `complex_calculations x y` succeeds and leaves
`StoredValue = 2 * y` regardless of `x`: the `x^2` read-increment-write
phase is overwritten by the final write of the phase-1 accumulator. -/
theorem complex_calculations_spec (s x y : Nat) (h : 2 * y ≤ U32_MAX) :
    complex_calculations x y s = (Except.ok (), 2 * y) := by
  simp only [complex_calculations]
  rw [part1_loop_of_le y 0 (by omega), Nat.zero_add]

theorem complex_calculations_spec_witness :
    complex_calculations 4 10 16 = (Except.ok (), 20) :=
  complex_calculations_spec 16 4 10 (by decide)

/-- Claim C5: `add_or_set true val` leaves `StoredValue = val`, and
`add_or_set false val` leaves `StoredValue` unchanged even though its branch
performs `val` read-then-write-same-value cycles. -/
theorem add_or_set_spec (s val : Nat) :
    add_or_set true val s = (Except.ok (), val) ∧
    add_or_set false val s = (Except.ok (), s) := by
  refine ⟨rfl, ?_⟩
  show (Except.ok (), set_loop val s) = (Except.ok (), s)
  rw [set_loop_eq]

/-- Claim C6: starting from the initial `StoredValue` of zero, the sequence
`store_value 5; add_n 3; double 8; double 1; complex_calculations 4 10;
add_or_set false 7` yields the query results 5, 8, 16, 16 (the second
`double` fails with the validation error, leaving 16), 20 and 20. -/
theorem end_to_end_scenario :
    store_value 5 0 = (Except.ok (), 5) ∧
    add_n 3 5 = (Except.ok (), 8) ∧
    double 8 8 = (Except.ok (), 16) ∧
    double 1 16 = (Except.error validationError, 16) ∧
    complex_calculations 4 10 16 = (Except.ok (), 20) ∧
    add_or_set false 7 20 = (Except.ok (), 20) :=
  ⟨rfl, rfl, rfl, rfl, rfl, rfl⟩

/-- Claim C7: for every coefficient `c` and parameter `x`, the `Linear c`
weight of `x` is `min (x * c) u32::MAX`: it saturates and never wraps. -/
theorem linear_weigh_data_spec (c x : Nat) :
    (Linear.mk c).weigh_data x = min (x * c) U32_MAX :=
  saturating_mul_eq_min x c

/-- Claim C8: for all coefficients `(a, b, c)` and parameters `(x, y)`, the
`Quadratic a b c` weight equals `min (x*x*a + y*b + c) u32::MAX`; clamping
each intermediate multiplication and addition agrees with clamping the
exact value once at the end. -/
theorem quadratic_weigh_data_spec (a b c x y : Nat) :
    (Quadratic.mk a b c).weigh_data x y = min (x * x * a + y * b + c) U32_MAX := by
  simp only [Quadratic.weigh_data]
  rw [saturating_mul_eq_min, saturating_mul_eq_min, saturating_mul_eq_min,
    saturating_add_eq_min, saturating_add_eq_min, min_mul_min, min_add_min,
    min_add_right]

/-- Claim C9: for every coefficient `c` and parameter `val`, the
`Conditional c` weight of `(true, val)` is `min (val * c) u32::MAX`, and of
`(false, val)` is the constant `c`, independent of `val`. -/
theorem conditional_weigh_data_spec (c val : Nat) :
    (Conditional.mk c).weigh_data true val = min (val * c) U32_MAX ∧
    (Conditional.mk c).weigh_data false val = c :=
  ⟨saturating_mul_eq_min val c, rfl⟩

/-- Claim C10: the outcome of `complex_calculations x y` (dispatch result
and final `StoredValue`) does not depend on the `StoredValue` at entry: the
last statement overwrites storage with the locally computed accumulator. -/
theorem complex_calculations_state_independent (s1 s2 x y : Nat) :
    complex_calculations x y s1 = complex_calculations x y s2 := rfl

end Weights
